import Mathlib

/-!
Shallow embedding of the book-catalog web client:
the auth state provider and API service layer (src/unnamed/part_000)
and the sign-up/verification view (src/src/pages/Signup.tsx).

External async calls (identity provider operations, HTTP fetches) are
modelled by passing their outcome as an explicit `Except` argument to the
handler that awaits them; React `useState` setters become functional state
updates; `navigate(dest)` becomes a `navigatedTo` field.
-/

/-- Role: `'user' | 'admin'` from the `User` interface. -/
inductive Role where
  | user
  | admin
deriving DecidableEq

/-- The `User` interface of the auth context. -/
structure User where
  id : String
  email : String
  name : String
  role : Role
  createdAt : String
deriving DecidableEq

/-- What `getCurrentUser()` yields on success: `{ userId, username }`. -/
structure CurrentUser where
  userId : String
  username : String
deriving DecidableEq

/-- The auth provider's own mutable state: `user` and `isLoading`. -/
structure AuthState where
  user : Option User
  isLoading : Bool
deriving DecidableEq

/-- Initial provider state: `useState<User | null>(null)`, `useState(true)`. -/
def initAuthState : AuthState :=
  { user := none, isLoading := true }

/-- The `User` object built inside `checkUser` from `getCurrentUser()`'s
result: role hard-coded to `user`, `createdAt` the current instant `now`. -/
def mkUser (now : String) (cu : CurrentUser) : User :=
  { id := cu.userId, email := cu.username, name := cu.username,
    role := Role.user, createdAt := now }

/-- `checkUser()`: awaits `fetchAuthSession()` then `getCurrentUser()`;
on success publishes the constructed user, on any failure publishes `none`;
`finally` clears `isLoading`. `session` and `cur` are the outcomes of the
two awaited provider calls. -/
def checkUser (session : Except String Unit) (cur : Except String CurrentUser)
    (now : String) (_st : AuthState) : AuthState :=
  match session, cur with
  | .ok _, .ok cu => { user := some (mkUser now cu), isLoading := false }
  | _, _ => { user := none, isLoading := false }

/-- `login(email, password)`: awaits `signIn`; on `isSignedIn` re-runs
`checkUser`; a thrown error is re-thrown after logging (state unchanged). -/
def login (signInR : Except String Bool) (session : Except String Unit)
    (cur : Except String CurrentUser) (now : String) (st : AuthState) :
    Except String AuthState :=
  match signInR with
  | .ok true => .ok (checkUser session cur now st)
  | .ok false => .ok st
  | .error e => .error e

/-- `signup(email, password, name)`: thin pass-through to `signUp`;
failures are logged and re-thrown; provider state untouched. -/
def signupOp (r : Except String Unit) (st : AuthState) :
    Except String AuthState :=
  match r with
  | .ok _ => .ok st
  | .error e => .error e

/-- `verifyCode(email, code)`: thin pass-through to `confirmSignUp`;
failures re-thrown; provider state untouched. -/
def verifyCodeOp (r : Except String Unit) (st : AuthState) :
    Except String AuthState :=
  match r with
  | .ok _ => .ok st
  | .error e => .error e

/-- `resendCode(email)`: thin pass-through to `resendSignUpCode`;
failures re-thrown; provider state untouched. -/
def resendCodeOp (r : Except String Unit) (st : AuthState) :
    Except String AuthState :=
  match r with
  | .ok _ => .ok st
  | .error e => .error e

/-- `logout()`: awaits `signOut()` and then runs `setUser(null)`; both live
in the `try` block, so when `signOut` throws, the `catch` only logs and the
`setUser(null)` statement never executes. No error is re-thrown, so the
result type carries no `Except`. -/
def logout (signOutR : Except String Unit) (st : AuthState) : AuthState :=
  match signOutR with
  | .ok _ => { st with user := none }
  | .error _ => st

/-- The context value published on every render:
`{ user, isAuthenticated: !!user, isLoading, ... }`. -/
structure AuthCtx where
  user : Option User
  isAuthenticated : Bool
  isLoading : Bool
deriving DecidableEq

/-- `AuthProvider`'s published value, computed from its state. -/
def publish (st : AuthState) : AuthCtx :=
  { user := st.user, isAuthenticated := st.user.isSome, isLoading := st.isLoading }

/-- One invocation of a provider operation, carrying the outcomes of the
external identity-provider calls it awaits. -/
inductive AuthEvent where
  | check (session : Except String Unit) (cur : Except String CurrentUser) (now : String)
  | loginE (signInR : Except String Bool) (session : Except String Unit)
      (cur : Except String CurrentUser) (now : String)
  | signupE (r : Except String Unit)
  | verifyE (r : Except String Unit)
  | resendE (r : Except String Unit)
  | logoutE (r : Except String Unit)

/-- Effect of one operation on the provider state. An operation that throws
leaves the provider state as the operation left it (none of them mutate
state after the point of failure). -/
def authStep (st : AuthState) (ev : AuthEvent) : AuthState :=
  match ev with
  | .check session cur now => checkUser session cur now st
  | .loginE s session cur now =>
      match login s session cur now st with
      | .ok st' => st'
      | .error _ => st
  | .signupE _ => st
  | .verifyE _ => st
  | .resendE _ => st
  | .logoutE r => logout r st

/-- Provider state after the mount-time `checkUser` and any sequence of
operation invocations, starting from the initial state. -/
def runAuth (evs : List AuthEvent) : AuthState :=
  evs.foldl authStep initAuthState

/-! ## API service layer -/

/-- `Response.ok` of the Fetch API: status in the 2xx range. -/
def respOk (status : Nat) : Bool :=
  Nat.ble 200 status && Nat.ble status 299

/-- `getBook(id)`: `status === 404` yields `null`; otherwise `!response.ok`
throws the generic `Failed to fetch book` error; otherwise the parsed body
is returned. `α` stands for the external `Book` type, `body` for the parsed
JSON of a 2xx response. -/
def getBook (α : Type) (status : Nat) (body : α) : Except String (Option α) :=
  if status = 404 then .ok none
  else if respOk status then .ok (some body)
  else .error "Failed to fetch book"

/-! ## Sign-up / verification view (src/src/pages/Signup.tsx) -/

/-- Flow step: `useState<'signup' | 'verification'>('signup')`. -/
inductive Step where
  | signup
  | verification
deriving DecidableEq

/-- Message kind of the resend feedback: `'success' | 'error'`. -/
inductive MsgType where
  | success
  | error
deriving DecidableEq

/-- Resend feedback: `{ message: string; type: 'success' | 'error' }`. -/
structure ResendStatus where
  message : String
  type : MsgType
deriving DecidableEq

/-- The `errors` object. In the source it is a plain JS object whose keys
are assigned per field; a missing key is modelled as `none`. `setErrors`
replaces the whole object, so every update rebuilds all five fields. -/
structure Errors where
  name : Option String := none
  email : Option String := none
  password : Option String := none
  confirmPassword : Option String := none
  code : Option String := none
deriving DecidableEq

/-- `Object.keys(newErrors).length === 0`: no key was assigned. -/
def Errors.isEmpty (e : Errors) : Bool :=
  e.name.isNone && e.email.isNone && e.password.isNone &&
    e.confirmPassword.isNone && e.code.isNone

/-- The error object a provider operation rejects with: a `name` and an
optional `message` (read with the `?.` chain in the source). -/
structure ProviderError where
  name : String
  message : Option String
deriving DecidableEq

/-- `pat` occurs as a contiguous run at the head of `s`. -/
def leadMatch : List Char → List Char → Bool
  | [], _ => true
  | _ :: _, [] => false
  | p :: ps, c :: cs => p = c && leadMatch ps cs

/-- `pat` occurs as a contiguous run somewhere in `s`. -/
def subAt : List Char → List Char → Bool
  | pat, [] => leadMatch pat []
  | pat, c :: cs => leadMatch pat (c :: cs) || subAt pat cs

/-- JavaScript `s.includes(pat)`: substring containment. -/
def strIncludes (s pat : String) : Bool :=
  subAt pat.data s.data

/-- The already-exists classification in `handleSignupSubmit`:
`error.name === 'UsernameExistsException' || error.message?.includes('already exists')`. -/
def isAlreadyExists (e : ProviderError) : Bool :=
  e.name = "UsernameExistsException" ||
    (match e.message with
     | some m => strIncludes m "already exists"
     | none => false)

/-- Modelled from the spec: `validateRequired` lives in
`src/utils/validation`, which is not part of the provided sources; the spec
describes it as required-field presence ("all fields non-empty"). -/
def validateRequired (s : String) : Bool :=
  s != ""

/-- `validate()`: builds the fresh error object. `vE` and `vP` stand for
`validateEmail` and `validatePassword` from `src/utils/validation`, which
are not part of the provided sources (the spec describes them only as a
standard address format and a minimum-length-plus-character-class policy),
so they are carried as explicit predicate parameters. -/
def validate (vE vP : String → Bool) (name email password confirmPassword : String) :
    Errors :=
  { name := if !validateRequired name then some "Name is required" else none,
    email :=
      if !validateRequired email then some "Email is required"
      else if !vE email then some "Invalid email format"
      else none,
    password :=
      if !validateRequired password then some "Password is required"
      else if !vP password then
        some "Password must be at least 8 characters with uppercase, lowercase, and number"
      else none,
    confirmPassword :=
      if password ≠ confirmPassword then some "Passwords do not match" else none,
    code := none }

/-- The view's local state. `navigatedTo` records a `navigate(dest)` call. -/
structure SignupView where
  step : Step
  name : String
  email : String
  password : String
  confirmPassword : String
  verificationCode : String
  errors : Errors
  isLoading : Bool
  resendStatus : Option ResendStatus
  navigatedTo : Option String
deriving DecidableEq

/-- Initial view state. -/
def initView : SignupView :=
  { step := Step.signup, name := "", email := "", password := "",
    confirmPassword := "", verificationCode := "", errors := {},
    isLoading := false, resendStatus := none, navigatedTo := none }

/-- Network calls a handler performs, in order. -/
inductive NetworkCall where
  | signupCall
  | resendCall
  | confirmCall
deriving DecidableEq

/-- The error object set by the already-exists branch:
`setErrors({ email: 'User already exists. Please verify your email.' })`. -/
def emailExistsErrors : Errors :=
  { email := some "User already exists. Please verify your email." }

/-- `handleSignupSubmit`: validates (always storing the fresh error
object); on failure returns before any network call; otherwise clears
`resendStatus`, awaits `signup` (`sr` its outcome); on success advances to
verification; on an already-exists failure records the email field error,
force-advances to verification and awaits an automatic `resendCode` (`rr`
its outcome), recording a success status on success and swallowing a
failure; any other failure goes to `handleApiError` (an external
notification handler from `src/utils/errorHandling`, not in the provided
sources — it does not touch this view's state) and leaves the step
unchanged. `finally` clears `isLoading`. -/
def handleSignupSubmit (vE vP : String → Bool) (sr rr : Except ProviderError Unit)
    (s : SignupView) : SignupView × List NetworkCall :=
  let newErrors := validate vE vP s.name s.email s.password s.confirmPassword
  if newErrors.isEmpty then
    let s1 : SignupView := { s with errors := newErrors, resendStatus := none }
    match sr with
    | .ok _ =>
        ({ s1 with step := Step.verification, isLoading := false },
         [NetworkCall.signupCall])
    | .error e =>
        if isAlreadyExists e then
          let s2 : SignupView :=
            { s1 with errors := emailExistsErrors, step := Step.verification }
          match rr with
          | .ok _ =>
              ({ s2 with
                  resendStatus := some
                    ({ message := "A new verification code has been sent to your email.",
                       type := MsgType.success }),
                  isLoading := false },
               [NetworkCall.signupCall, NetworkCall.resendCall])
          | .error _ =>
              ({ s2 with isLoading := false },
               [NetworkCall.signupCall, NetworkCall.resendCall])
        else
          ({ s1 with isLoading := false }, [NetworkCall.signupCall])
  else
    ({ s with errors := newErrors }, [])

/-- `handleVerificationSubmit`: an empty code records the code field error
and returns before any network call; otherwise awaits `verifyCode` (`r` its
outcome); on success navigates to `/login` (errors untouched); on failure
`handleApiError` runs and the code field error is set. `finally` clears
`isLoading`. -/
def handleVerificationSubmit (r : Except ProviderError Unit) (s : SignupView) :
    SignupView × List NetworkCall :=
  if s.verificationCode = "" then
    ({ s with errors := { code := some "Verification code is required" } }, [])
  else
    match r with
    | .ok _ =>
        ({ s with navigatedTo := some "/login", isLoading := false },
         [NetworkCall.confirmCall])
    | .error _ =>
        ({ s with errors := { code := some "Invalid verification code" },
                  isLoading := false },
         [NetworkCall.confirmCall])

/-- First statement of `handleResendCode`: `setResendStatus(null)`. -/
def resendStart (s : SignupView) : SignupView :=
  { s with resendStatus := none }

/-- Resolution of `handleResendCode`'s awaited `resendCode` call: success
stores the fixed success message, any failure stores the fixed rate-limit
message. -/
def resendFinish (r : Except ProviderError Unit) (s : SignupView) : SignupView :=
  match r with
  | .ok _ =>
      { s with
          resendStatus :=
            some ({ message := "New code sent successfully!",
                    type := MsgType.success }) }
  | .error _ =>
      { s with
          resendStatus :=
            some ({ message := "Cannot send multiple emails in a short time. Please try again later.",
                    type := MsgType.error }) }

/-- `handleResendCode`: clears the previous status, then awaits
`resendCode` and stores the outcome message. -/
def handleResendCode (r : Except ProviderError Unit) (s : SignupView) :
    SignupView × List NetworkCall :=
  (resendFinish r (resendStart s), [NetworkCall.resendCall])

/-- A validation predicate accepting every string; stands in for a
`validateEmail`/`validatePassword` instance at concrete inputs. -/
def vTrue (_s : String) : Bool :=
  true

/-- How a sign-up submission resolved: validation blocked it, the provider
call succeeded, it failed with the already-exists classification, or it
failed some other way. -/
inductive SignupOutcomeK where
  | success
  | alreadyExists
  | otherError
  | invalidInput
deriving DecidableEq

/-- Classification of a sign-up submission given the view state it started
from and the outcome `sr` of the provider `signup` call. -/
def classifySignup (vE vP : String → Bool) (s : SignupView)
    (sr : Except ProviderError Unit) : SignupOutcomeK :=
  if (validate vE vP s.name s.email s.password s.confirmPassword).isEmpty then
    match sr with
    | .ok _ => SignupOutcomeK.success
    | .error e =>
        if isAlreadyExists e then SignupOutcomeK.alreadyExists
        else SignupOutcomeK.otherError
  else SignupOutcomeK.invalidInput

/-- The most recent sign-up submission succeeded or was classified
already-exists. -/
abbrev goodGhost (g : Option SignupOutcomeK) : Prop :=
  g = some SignupOutcomeK.success ∨ g = some SignupOutcomeK.alreadyExists

/-- A user interaction with the rendered view, carrying the outcomes of the
provider calls the triggered handler awaits. Field inputs and the sign-up
submit exist only on the sign-up form; the code input, verification
submit, manual resend and Back-to-Signup button only on the verification
form. -/
inductive ViewEvent where
  | setName (v : String)
  | setEmail (v : String)
  | setPassword (v : String)
  | setConfirmPassword (v : String)
  | setCode (v : String)
  | submitSignup (sr rr : Except ProviderError Unit)
  | submitVerification (r : Except ProviderError Unit)
  | clickResend (r : Except ProviderError Unit)
  | backToSignup

/-- One step of the view: events whose control is not rendered in the
current flow step are no-ops; a sign-up submission additionally records its
classification as the most recent submission outcome (second component). -/
def stepView (vE vP : String → Bool) (st : SignupView × Option SignupOutcomeK)
    (ev : ViewEvent) : SignupView × Option SignupOutcomeK :=
  match ev with
  | .setName v =>
      if st.1.step = Step.signup then ({ st.1 with name := v }, st.2) else st
  | .setEmail v =>
      if st.1.step = Step.signup then ({ st.1 with email := v }, st.2) else st
  | .setPassword v =>
      if st.1.step = Step.signup then ({ st.1 with password := v }, st.2) else st
  | .setConfirmPassword v =>
      if st.1.step = Step.signup then ({ st.1 with confirmPassword := v }, st.2) else st
  | .setCode v =>
      if st.1.step = Step.verification then ({ st.1 with verificationCode := v }, st.2) else st
  | .submitSignup sr rr =>
      if st.1.step = Step.signup then
        ((handleSignupSubmit vE vP sr rr st.1).1, some (classifySignup vE vP st.1 sr))
      else st
  | .submitVerification r =>
      if st.1.step = Step.verification then
        ((handleVerificationSubmit r st.1).1, st.2)
      else st
  | .clickResend r =>
      if st.1.step = Step.verification then
        ((handleResendCode r st.1).1, st.2)
      else st
  | .backToSignup =>
      if st.1.step = Step.verification then
        ({ st.1 with step := Step.signup }, st.2)
      else st

/-- The view state (with the most-recent-submission ghost) reached from the
initial state by a sequence of interactions. -/
def runView (vE vP : String → Bool) (evs : List ViewEvent) :
    SignupView × Option SignupOutcomeK :=
  evs.foldl (stepView vE vP) (initView, none)

/-! ## Theorems about the auth provider and API layer -/

/-- C1 counterexample: with a signed-in user, a `logout` whose `signOut`
call fails leaves the published user state non-null — the claim that the
user state is cleared even when sign-out fails is false at this input. -/
theorem logout_failed_signout_keeps_user :
    ¬ ((logout (.error "network error")
        { user := some { id := "u1", email := "a@b.c", name := "Ada",
                         role := Role.user, createdAt := "2026-01-01" },
          isLoading := false }).user = none) := by
  decide

/-- C1 (amended): `logout` never reports an error to the caller; when
`signOut` succeeds the published user state is cleared to null, and when
`signOut` fails the failure is only logged and the state is left unchanged
(the user is not cleared). -/
theorem logout_spec (st : AuthState) (r : Except String Unit) :
    ((∃ u, r = .ok u) → (logout r st).user = none) ∧
    (∀ e, r = .error e → logout r st = st) := by
  constructor
  · rintro ⟨u, rfl⟩
    rfl
  · rintro e rfl
    rfl

/-- C1 witness: at a concrete signed-in state, a successful sign-out clears
the user and a failed sign-out leaves the state unchanged. -/
theorem logout_spec_witness :
    (logout (.ok ())
      { user := some { id := "u1", email := "a@b.c", name := "Ada",
                       role := Role.user, createdAt := "2026-01-01" },
        isLoading := false }).user = none ∧
    logout (.error "network error")
      { user := some { id := "u1", email := "a@b.c", name := "Ada",
                       role := Role.user, createdAt := "2026-01-01" },
        isLoading := false } =
      { user := some { id := "u1", email := "a@b.c", name := "Ada",
                       role := Role.user, createdAt := "2026-01-01" },
        isLoading := false } := by
  refine ⟨(logout_spec _ _).1 ⟨(), rfl⟩, (logout_spec _ _).2 "network error" rfl⟩

/-- C9: `getBook` maps a 404 response to an absent result rather than an
error, maps every other non-2xx response to the single generic
`Failed to fetch book` error with no further status-specific handling, and
returns the parsed body on a 2xx response. -/
theorem getBook_spec (α : Type) (status : Nat) (body : α) :
    (getBook α 404 body = .ok none) ∧
    (status ≠ 404 → respOk status = false →
      getBook α status body = .error "Failed to fetch book") ∧
    (status ≠ 404 → respOk status = true →
      getBook α status body = .ok (some body)) := by
  refine ⟨rfl, ?_, ?_⟩
  · intro h404 hok
    simp [getBook, h404, hok]
  · intro h404 hok
    simp [getBook, h404, hok]

/-- C9 witness: status 404 is absent, status 500 raises the generic error,
status 200 returns the body. -/
theorem getBook_spec_witness :
    getBook Nat 404 7 = .ok none ∧
    getBook Nat 500 7 = .error "Failed to fetch book" ∧
    getBook Nat 200 7 = .ok (some 7) := by
  exact ⟨(getBook_spec Nat 500 7).1,
         (getBook_spec Nat 500 7).2.1 (by decide) (by decide),
         (getBook_spec Nat 200 7).2.2 (by decide) (by decide)⟩

/-- C10: in every state the provider publishes — after the mount-time
session check and any sequence of login/logout/signup/verify/resend
invocations — the published `isAuthenticated` flag is true exactly when the
published user is non-null, because it is computed as `!!user`. -/
theorem publish_isAuthenticated_iff (evs : List AuthEvent) :
    (publish (runAuth evs)).isAuthenticated = true ↔
      (publish (runAuth evs)).user ≠ none := by
  cases h : (runAuth evs).user <;> simp [publish, h]

/-! ## Theorems about the sign-up view -/

/-- When validation fails, `handleSignupSubmit` stores the fresh error
object and returns before any network call. -/
theorem handleSignupSubmit_invalid (vE vP : String → Bool)
    (sr rr : Except ProviderError Unit) (s : SignupView)
    (h : (validate vE vP s.name s.email s.password s.confirmPassword).isEmpty = false) :
    handleSignupSubmit vE vP sr rr s =
      ({ s with errors := validate vE vP s.name s.email s.password s.confirmPassword },
       []) := by
  simp [handleSignupSubmit, h]

/-- `validateRequired` rejects the empty string. -/
theorem validateRequired_empty : validateRequired "" = false := by
  decide

/-- `validateRequired` accepts any non-empty string. -/
theorem validateRequired_of_ne {x : String} (h : x ≠ "") :
    validateRequired x = true := by
  simp [validateRequired, bne_iff_ne, h]

/-- C7: when validation passes and the provider sign-up call succeeds, the
handler advances the flow step from `signup` to `verification`, leaves the
resend-status absent, and has made exactly the sign-up network call. -/
theorem signup_success_flow (vE vP : String → Bool) (rr : Except ProviderError Unit)
    (s : SignupView)
    (hv : (validate vE vP s.name s.email s.password s.confirmPassword).isEmpty = true)
    (_hstep : s.step = Step.signup) :
    (handleSignupSubmit vE vP (Except.ok ()) rr s).1.step = Step.verification ∧
    (handleSignupSubmit vE vP (Except.ok ()) rr s).1.resendStatus = none ∧
    (handleSignupSubmit vE vP (Except.ok ()) rr s).2 = [NetworkCall.signupCall] := by
  simp [handleSignupSubmit, hv]

/-- C7 witness: a concrete valid submission whose provider call succeeds. -/
theorem signup_success_flow_witness :
    (handleSignupSubmit vTrue vTrue (Except.ok ()) (Except.ok ())
      ({ initView with
          name := "Ada", email := "ada@b.co",
          password := "Passw0rd1", confirmPassword := "Passw0rd1" })).1.step =
        Step.verification ∧
    (handleSignupSubmit vTrue vTrue (Except.ok ()) (Except.ok ())
      ({ initView with
          name := "Ada", email := "ada@b.co",
          password := "Passw0rd1", confirmPassword := "Passw0rd1" })).1.resendStatus =
        none ∧
    (handleSignupSubmit vTrue vTrue (Except.ok ()) (Except.ok ())
      ({ initView with
          name := "Ada", email := "ada@b.co",
          password := "Passw0rd1", confirmPassword := "Passw0rd1" })).2 =
        [NetworkCall.signupCall] :=
  signup_success_flow vTrue vTrue (Except.ok ()) _ (by decide) (by decide)

/-- C3: when validation passes and the provider sign-up call fails with the
already-exists classification, the handler sets the email field error,
force-advances to `verification`, and makes the sign-up call followed by
one automatic resend call; if the resend succeeds, resend-status holds the
fixed success message, and if it fails, resend-status stays absent (and the
error object still holds only the email message, so no further error is
shown). -/
theorem signup_already_exists_flow (vE vP : String → Bool) (e : ProviderError)
    (rr : Except ProviderError Unit) (s : SignupView)
    (hv : (validate vE vP s.name s.email s.password s.confirmPassword).isEmpty = true)
    (he : isAlreadyExists e = true) :
    (handleSignupSubmit vE vP (Except.error e) rr s).1.step = Step.verification ∧
    (handleSignupSubmit vE vP (Except.error e) rr s).1.errors = emailExistsErrors ∧
    (handleSignupSubmit vE vP (Except.error e) rr s).2 =
      [NetworkCall.signupCall, NetworkCall.resendCall] ∧
    (∀ u, rr = Except.ok u →
      (handleSignupSubmit vE vP (Except.error e) rr s).1.resendStatus =
        some ({ message := "A new verification code has been sent to your email.",
                type := MsgType.success })) ∧
    (∀ e2, rr = Except.error e2 →
      (handleSignupSubmit vE vP (Except.error e) rr s).1.resendStatus = none) := by
  cases rr <;> simp [handleSignupSubmit, hv, he]

/-- C3 witness: a concrete already-exists rejection, once with a failing
automatic resend (status stays absent) and once with a succeeding one. -/
theorem signup_already_exists_flow_witness :
    (handleSignupSubmit vTrue vTrue
      (Except.error ({ name := "UsernameExistsException", message := none }))
      (Except.error ({ name := "LimitExceededException", message := none }))
      ({ initView with
          name := "Ada", email := "ada@b.co",
          password := "Passw0rd1", confirmPassword := "Passw0rd1" })).1.step =
        Step.verification ∧
    (handleSignupSubmit vTrue vTrue
      (Except.error ({ name := "UsernameExistsException", message := none }))
      (Except.error ({ name := "LimitExceededException", message := none }))
      ({ initView with
          name := "Ada", email := "ada@b.co",
          password := "Passw0rd1", confirmPassword := "Passw0rd1" })).1.resendStatus =
        none ∧
    (handleSignupSubmit vTrue vTrue
      (Except.error ({ name := "UsernameExistsException", message := none }))
      (Except.ok ())
      ({ initView with
          name := "Ada", email := "ada@b.co",
          password := "Passw0rd1", confirmPassword := "Passw0rd1" })).1.resendStatus =
        some ({ message := "A new verification code has been sent to your email.",
                type := MsgType.success }) :=
  ⟨(signup_already_exists_flow vTrue vTrue _ _ _ (by decide) (by decide)).1,
   (signup_already_exists_flow vTrue vTrue _ _ _ (by decide) (by decide)).2.2.2.2
     ({ name := "LimitExceededException", message := none }) rfl,
   (signup_already_exists_flow vTrue vTrue _ _ _ (by decide) (by decide)).2.2.2.1
     () rfl⟩

/-- C5: a sign-up submission whose inputs fail validation makes no network
call and stores the fresh error object, whose fields carry the specific
message of each violated rule: missing name, missing or ill-formed email,
missing or policy-violating password, and password/confirm mismatch. -/
theorem signup_validation_blocks (vE vP : String → Bool)
    (sr rr : Except ProviderError Unit) (s : SignupView) :
    ((validate vE vP s.name s.email s.password s.confirmPassword).isEmpty = false →
      handleSignupSubmit vE vP sr rr s =
        ({ s with errors := validate vE vP s.name s.email s.password s.confirmPassword },
         [])) ∧
    (s.name = "" →
      (handleSignupSubmit vE vP sr rr s).1.errors.name = some "Name is required" ∧
      (handleSignupSubmit vE vP sr rr s).2 = []) ∧
    (s.email = "" →
      (handleSignupSubmit vE vP sr rr s).1.errors.email = some "Email is required" ∧
      (handleSignupSubmit vE vP sr rr s).2 = []) ∧
    (s.email ≠ "" → vE s.email = false →
      (handleSignupSubmit vE vP sr rr s).1.errors.email = some "Invalid email format" ∧
      (handleSignupSubmit vE vP sr rr s).2 = []) ∧
    (s.password = "" →
      (handleSignupSubmit vE vP sr rr s).1.errors.password = some "Password is required" ∧
      (handleSignupSubmit vE vP sr rr s).2 = []) ∧
    (s.password ≠ "" → vP s.password = false →
      (handleSignupSubmit vE vP sr rr s).1.errors.password =
        some "Password must be at least 8 characters with uppercase, lowercase, and number" ∧
      (handleSignupSubmit vE vP sr rr s).2 = []) ∧
    (s.password ≠ s.confirmPassword →
      (handleSignupSubmit vE vP sr rr s).1.errors.confirmPassword =
        some "Passwords do not match" ∧
      (handleSignupSubmit vE vP sr rr s).2 = []) := by
  refine ⟨fun h => handleSignupSubmit_invalid vE vP sr rr s h, ?_, ?_, ?_, ?_, ?_, ?_⟩
  · intro h
    have hf : (validate vE vP s.name s.email s.password s.confirmPassword).isEmpty = false := by
      simp [validate, Errors.isEmpty, h, validateRequired_empty]
    rw [handleSignupSubmit_invalid vE vP sr rr s hf]
    exact ⟨by simp [validate, h, validateRequired_empty], rfl⟩
  · intro h
    have hf : (validate vE vP s.name s.email s.password s.confirmPassword).isEmpty = false := by
      simp [validate, Errors.isEmpty, h, validateRequired_empty]
    rw [handleSignupSubmit_invalid vE vP sr rr s hf]
    exact ⟨by simp [validate, h, validateRequired_empty], rfl⟩
  · intro h1 h2
    have hf : (validate vE vP s.name s.email s.password s.confirmPassword).isEmpty = false := by
      simp [validate, Errors.isEmpty, validateRequired_of_ne h1, h2]
    rw [handleSignupSubmit_invalid vE vP sr rr s hf]
    exact ⟨by simp [validate, validateRequired_of_ne h1, h2], rfl⟩
  · intro h
    have hf : (validate vE vP s.name s.email s.password s.confirmPassword).isEmpty = false := by
      simp [validate, Errors.isEmpty, h, validateRequired_empty]
    rw [handleSignupSubmit_invalid vE vP sr rr s hf]
    exact ⟨by simp [validate, h, validateRequired_empty], rfl⟩
  · intro h1 h2
    have hf : (validate vE vP s.name s.email s.password s.confirmPassword).isEmpty = false := by
      simp [validate, Errors.isEmpty, validateRequired_of_ne h1, h2]
    rw [handleSignupSubmit_invalid vE vP sr rr s hf]
    exact ⟨by simp [validate, validateRequired_of_ne h1, h2], rfl⟩
  · intro h
    have hf : (validate vE vP s.name s.email s.password s.confirmPassword).isEmpty = false := by
      simp [validate, Errors.isEmpty, h]
    rw [handleSignupSubmit_invalid vE vP sr rr s hf]
    exact ⟨by simp [validate, h], rfl⟩

/-- C5 witness: a concrete submission with mismatched passwords records the
mismatch message and performs no network call. -/
theorem signup_validation_blocks_witness :
    (handleSignupSubmit vTrue vTrue (Except.ok ()) (Except.ok ())
      ({ initView with
          name := "Ada", email := "ada@b.co",
          password := "Passw0rd1", confirmPassword := "different" })).1.errors.confirmPassword =
      some "Passwords do not match" ∧
    (handleSignupSubmit vTrue vTrue (Except.ok ()) (Except.ok ())
      ({ initView with
          name := "Ada", email := "ada@b.co",
          password := "Passw0rd1", confirmPassword := "different" })).2 = [] :=
  (signup_validation_blocks vTrue vTrue (Except.ok ()) (Except.ok ())
    ({ initView with
        name := "Ada", email := "ada@b.co",
        password := "Passw0rd1", confirmPassword := "different" })).2.2.2.2.2.2
    (by decide)

/-- C6: a manual resend first clears the previous resend-status, then
stores exactly one of the two fixed outcomes: the fixed success message on
success, and the fixed rate-limit message (kind error) for every failure,
whatever its cause. -/
theorem resend_manual_flow (r : Except ProviderError Unit) (s : SignupView) :
    (resendStart s).resendStatus = none ∧
    handleResendCode r s = (resendFinish r (resendStart s), [NetworkCall.resendCall]) ∧
    (∀ u, r = Except.ok u →
      (handleResendCode r s).1.resendStatus =
        some ({ message := "New code sent successfully!", type := MsgType.success })) ∧
    (∀ e, r = Except.error e →
      (handleResendCode r s).1.resendStatus =
        some ({ message := "Cannot send multiple emails in a short time. Please try again later.",
                type := MsgType.error })) := by
  refine ⟨rfl, rfl, ?_, ?_⟩
  · rintro u rfl
    rfl
  · rintro e rfl
    rfl

/-- C6 witness: both outcomes at concrete inputs. -/
theorem resend_manual_flow_witness :
    (handleResendCode (Except.ok ()) initView).1.resendStatus =
      some ({ message := "New code sent successfully!", type := MsgType.success }) ∧
    (handleResendCode (Except.error ({ name := "LimitExceededException", message := none }))
        initView).1.resendStatus =
      some ({ message := "Cannot send multiple emails in a short time. Please try again later.",
              type := MsgType.error }) :=
  ⟨(resend_manual_flow (Except.ok ()) initView).2.2.1 () rfl,
   (resend_manual_flow (Except.error ({ name := "LimitExceededException", message := none }))
     initView).2.2.2 ({ name := "LimitExceededException", message := none }) rfl⟩

/-- C8: a verification submission with an empty code records the code field
error and makes no network call; with a non-empty code the confirm call is
made. -/
theorem verification_code_required (r : Except ProviderError Unit) (s : SignupView) :
    (s.verificationCode = "" →
      handleVerificationSubmit r s =
        ({ s with errors := { code := some "Verification code is required" } }, [])) ∧
    (s.verificationCode ≠ "" →
      (handleVerificationSubmit r s).2 = [NetworkCall.confirmCall]) := by
  constructor
  · intro h
    simp [handleVerificationSubmit, h]
  · intro h
    cases r <;> simp [handleVerificationSubmit, h]

/-- C8 witness: empty code blocks with the field error; a non-empty code
reaches the confirm call. -/
theorem verification_code_required_witness :
    handleVerificationSubmit (Except.ok ()) initView =
      ({ initView with errors := { code := some "Verification code is required" } }, []) ∧
    (handleVerificationSubmit (Except.ok ())
      ({ initView with verificationCode := "123456" })).2 = [NetworkCall.confirmCall] :=
  ⟨(verification_code_required (Except.ok ()) initView).1 rfl,
   (verification_code_required (Except.ok ())
     ({ initView with verificationCode := "123456" })).2 (by decide)⟩

/-- C4 (amended): a verification submission with a non-empty code whose
confirm call succeeds navigates to the login destination, and the error
state is left exactly as it was before the submission — it is not cleared,
so it is empty only if it was already empty. -/
theorem verification_success_navigates (s : SignupView)
    (h : s.verificationCode ≠ "") :
    (handleVerificationSubmit (Except.ok ()) s).1.navigatedTo = some "/login" ∧
    (handleVerificationSubmit (Except.ok ()) s).1.errors = s.errors := by
  simp [handleVerificationSubmit, h]

/-- C4 witness: a concrete successful verification navigates and keeps the
(previously empty) error object. -/
theorem verification_success_navigates_witness :
    (handleVerificationSubmit (Except.ok ())
      ({ initView with verificationCode := "123456" })).1.navigatedTo = some "/login" ∧
    (handleVerificationSubmit (Except.ok ())
      ({ initView with verificationCode := "123456" })).1.errors =
      ({ initView with verificationCode := "123456" } : SignupView).errors :=
  verification_success_navigates ({ initView with verificationCode := "123456" }) (by decide)

/-- C4 counterexample: a reachable run in which sign-up failed with
already-exists (setting the email field error), the user then entered a
code and the confirm call succeeded: navigation to `/login` happens, but
the email field error is still set, so field errors do remain at that
point. -/
theorem verification_success_keeps_errors_counterexample :
    ((runView vTrue vTrue
      [ViewEvent.setName "Ada", ViewEvent.setEmail "ada@b.co",
       ViewEvent.setPassword "Passw0rd1", ViewEvent.setConfirmPassword "Passw0rd1",
       ViewEvent.submitSignup
         (Except.error ({ name := "UsernameExistsException", message := none }))
         (Except.error ({ name := "LimitExceededException", message := none })),
       ViewEvent.setCode "123456",
       ViewEvent.submitVerification (Except.ok ())]).1.navigatedTo = some "/login") ∧
    (runView vTrue vTrue
      [ViewEvent.setName "Ada", ViewEvent.setEmail "ada@b.co",
       ViewEvent.setPassword "Passw0rd1", ViewEvent.setConfirmPassword "Passw0rd1",
       ViewEvent.submitSignup
         (Except.error ({ name := "UsernameExistsException", message := none }))
         (Except.error ({ name := "LimitExceededException", message := none })),
       ViewEvent.setCode "123456",
       ViewEvent.submitVerification (Except.ok ())]).1.errors.email =
      some "User already exists. Please verify your email." := by
  decide

/-- `handleVerificationSubmit` never changes the flow step. -/
theorem handleVerificationSubmit_step (r : Except ProviderError Unit) (s : SignupView) :
    (handleVerificationSubmit r s).1.step = s.step := by
  cases r <;> simp only [handleVerificationSubmit] <;> split <;> rfl

/-- `handleResendCode` never changes the flow step. -/
theorem handleResendCode_step (r : Except ProviderError Unit) (s : SignupView) :
    (handleResendCode r s).1.step = s.step := by
  cases r <;> rfl

/-- From the sign-up step, a submission lands on `verification` exactly
when its classification is success or already-exists. -/
theorem submit_step_iff (vE vP : String → Bool) (sr rr : Except ProviderError Unit)
    (s : SignupView) (h : s.step = Step.signup) :
    ((handleSignupSubmit vE vP sr rr s).1.step = Step.verification ↔
      goodGhost (some (classifySignup vE vP s sr))) := by
  cases hE : (validate vE vP s.name s.email s.password s.confirmPassword).isEmpty
  · rw [handleSignupSubmit_invalid vE vP sr rr s hE]
    simp [classifySignup, hE, h, goodGhost]
  · cases sr with
    | ok u => simp [handleSignupSubmit, classifySignup, hE, goodGhost]
    | error e =>
      cases hA : isAlreadyExists e
      · cases rr <;> simp [handleSignupSubmit, classifySignup, hE, hA, h, goodGhost]
      · cases rr <;> simp [handleSignupSubmit, classifySignup, hE, hA, goodGhost]

/-- One view step preserves the invariant relating the flow step to the
most recent sign-up submission outcome. -/
theorem stepView_inv (vE vP : String → Bool)
    (st : SignupView × Option SignupOutcomeK) (ev : ViewEvent)
    (h : st.1.step = Step.verification → goodGhost st.2) :
    (stepView vE vP st ev).1.step = Step.verification →
      goodGhost (stepView vE vP st ev).2 := by
  cases ev with
  | setName v =>
      simp only [stepView]
      split
      · exact h
      · exact h
  | setEmail v =>
      simp only [stepView]
      split
      · exact h
      · exact h
  | setPassword v =>
      simp only [stepView]
      split
      · exact h
      · exact h
  | setConfirmPassword v =>
      simp only [stepView]
      split
      · exact h
      · exact h
  | setCode v =>
      simp only [stepView]
      split
      · exact h
      · exact h
  | submitSignup sr rr =>
      simp only [stepView]
      split
      · next hs =>
          intro hv
          exact (submit_step_iff vE vP sr rr st.1 hs).mp hv
      · exact h
  | submitVerification r =>
      simp only [stepView]
      split
      · intro hv
        rw [handleVerificationSubmit_step r st.1] at hv
        exact h hv
      · exact h
  | clickResend r =>
      simp only [stepView]
      split
      · intro hv
        rw [handleResendCode_step r st.1] at hv
        exact h hv
      · exact h
  | backToSignup =>
      simp only [stepView]
      split
      · intro hc
        exact Step.noConfusion hc
      · exact h

/-- The invariant holds along any interaction sequence from any state
satisfying it. -/
theorem runView_inv (vE vP : String → Bool) :
    ∀ (evs : List ViewEvent) (st : SignupView × Option SignupOutcomeK),
      (st.1.step = Step.verification → goodGhost st.2) →
      ((List.foldl (stepView vE vP) st evs).1.step = Step.verification →
        goodGhost (List.foldl (stepView vE vP) st evs).2)
  | [], _, h => h
  | ev :: evs, st, h =>
      runView_inv vE vP evs (stepView vE vP st ev) (stepView_inv vE vP st ev h)

/-- C2 (amended): in every reachable state of the sign-up view, if the flow
step is `verification` then the most recent sign-up submission succeeded or
failed with the already-exists classification; and immediately after any
sign-up submission from the `signup` step the converse also holds — the
step is `verification` exactly when that submission succeeded or was
already-exists. The full biconditional is not a state invariant, because
the Back-to-Signup button returns the step to `signup` without a new
submission. -/
theorem step_verification_iff_good_submission (vE vP : String → Bool)
    (evs : List ViewEvent) :
    ((runView vE vP evs).1.step = Step.verification →
      goodGhost (runView vE vP evs).2) ∧
    (∀ sr rr, (runView vE vP evs).1.step = Step.signup →
      ((stepView vE vP (runView vE vP evs) (ViewEvent.submitSignup sr rr)).1.step =
          Step.verification ↔
        goodGhost (stepView vE vP (runView vE vP evs)
          (ViewEvent.submitSignup sr rr)).2)) := by
  constructor
  · exact runView_inv vE vP evs (initView, none) (fun hc => by simp [initView] at hc)
  · intro sr rr hs
    simp only [stepView, hs, ite_true]
    exact submit_step_iff vE vP sr rr (runView vE vP evs).1 hs

/-- C2 witness: a concrete run whose last sign-up submission succeeded is
on the verification step, and the invariant yields the good outcome. -/
theorem step_verification_iff_good_submission_witness :
    goodGhost (runView vTrue vTrue
      [ViewEvent.setName "Ada", ViewEvent.setEmail "ada@b.co",
       ViewEvent.setPassword "Passw0rd1", ViewEvent.setConfirmPassword "Passw0rd1",
       ViewEvent.submitSignup (Except.ok ()) (Except.ok ())]).2 :=
  (step_verification_iff_good_submission vTrue vTrue
    [ViewEvent.setName "Ada", ViewEvent.setEmail "ada@b.co",
     ViewEvent.setPassword "Passw0rd1", ViewEvent.setConfirmPassword "Passw0rd1",
     ViewEvent.submitSignup (Except.ok ()) (Except.ok ())]).1 (by decide)

/-- C2 counterexample: after a successful sign-up submission the user
presses Back-to-Signup; the reachable state has flow step `signup` while
the most recent submission succeeded, so the claimed biconditional fails. -/
theorem step_verification_iff_counterexample :
    ¬ (((runView vTrue vTrue
        [ViewEvent.setName "Ada", ViewEvent.setEmail "ada@b.co",
         ViewEvent.setPassword "Passw0rd1", ViewEvent.setConfirmPassword "Passw0rd1",
         ViewEvent.submitSignup (Except.ok ()) (Except.ok ()),
         ViewEvent.backToSignup]).1.step = Step.verification) ↔
      goodGhost (runView vTrue vTrue
        [ViewEvent.setName "Ada", ViewEvent.setEmail "ada@b.co",
         ViewEvent.setPassword "Passw0rd1", ViewEvent.setConfirmPassword "Passw0rd1",
         ViewEvent.submitSignup (Except.ok ()) (Except.ok ()),
         ViewEvent.backToSignup]).2) := by
  decide
